import Mathlib

/-!
Shallow embedding of the analysis surface of the TransRapport desktop
application (`src/desktop/src-tauri/src/analysis_commands.rs`, with the
`SpeakerSegment` input type from
`src/desktop/src-tauri/src/transcription_commands.rs`).

The three Tauri commands `analyze_transcript`, `get_analysis_progress` and
`calculate_rapport` are pure apart from logging, so they are embedded as
total Lean functions returning `Except String α`, mirroring the Rust
`Result<α, String>`. All `f64` fields in the source are only ever filled
with literal constants and never subjected to floating-point arithmetic,
so they are modelled as `ℚ`; the `u32` field `markers_detected` is
modelled as `ℕ`.
-/

namespace TransRapport

/-- `SpeakerSegment` from `transcription_commands.rs` (lines 13-20):
one speaker-attributed transcript span. -/
structure SpeakerSegment where
  speaker_id : String
  speaker_label : String
  start_time : ℚ
  end_time : ℚ
  text : String
  confidence : ℚ
deriving Repr, DecidableEq

/-- `MarkerEvent` from `analysis_commands.rs` (lines 5-14):
one detected marker with category, interval, confidence and evidence. -/
structure MarkerEvent where
  id : String
  marker_type : String
  start_time : ℚ
  end_time : ℚ
  confidence : ℚ
  evidence : String
  explanation : String
  speaker : Option String
deriving Repr, DecidableEq

/-- `RapportIndicator` from `analysis_commands.rs` (lines 16-22):
one sample of the rapport time series. -/
structure RapportIndicator where
  timestamp : ℚ
  value : ℚ
  trend : String
  contributing_markers : List String
deriving Repr, DecidableEq

/-- `AnalysisProgress` from `analysis_commands.rs` (lines 24-30):
a progress snapshot for one session. -/
structure AnalysisProgress where
  session_id : String
  progress : ℚ
  current_stage : String
  markers_detected : ℕ
deriving Repr, DecidableEq

/-- `analyze_transcript` from `analysis_commands.rs` (lines 32-44).
The body is a stub: it logs and unconditionally returns
`Ok("Analysis started successfully")`; no validation of the segments and
no job registry exists. -/
def analyze_transcript (_session_id : String)
    (_transcript_segments : List SpeakerSegment) : Except String String :=
  Except.ok "Analysis started successfully"

/-- `get_analysis_progress` from `analysis_commands.rs` (lines 46-57).
The body is a stub: it unconditionally returns a fixed snapshot echoing
the queried session id. -/
def get_analysis_progress (session_id : String) : Except String AnalysisProgress :=
  Except.ok
    { session_id := session_id
      progress := 0.60
      current_stage := "CLU"
      markers_detected := 15 }

/-- `calculate_rapport` from `analysis_commands.rs` (lines 59-82).
The body is a stub ("Mock rapport calculation"): it unconditionally
returns the same fixed two-indicator series, ignoring both arguments. -/
def calculate_rapport (_session_id : String)
    (_markers : List MarkerEvent) : Except String (List RapportIndicator) :=
  Except.ok
    [ { timestamp := 60.0
        value := 0.7
        trend := "increasing"
        contributing_markers := ["ATO_001", "SEM_003"] },
      { timestamp := 120.0
        value := 0.8
        trend := "stable"
        contributing_markers := ["CLU_002"] } ]

/-- Helper: `calculate_rapport` returns the fixed mock series on every
input. -/
theorem calculate_rapport_eq (s : String) (markers : List MarkerEvent) :
    calculate_rapport s markers = Except.ok
      [ { timestamp := 60.0
          value := 0.7
          trend := "increasing"
          contributing_markers := ["ATO_001", "SEM_003"] },
        { timestamp := 120.0
          value := 0.8
          trend := "stable"
          contributing_markers := ["CLU_002"] } ] := rfl

/-- A segment violating the entry validation demanded by the spec:
`end_time <= start_time`, confidence outside [0,1], and empty text. -/
def invalidSegment : SpeakerSegment :=
  { speaker_id := "sp1"
    speaker_label := "Speaker 1"
    start_time := 5
    end_time := 5
    text := ""
    confidence := 2 }

/-- C1: the claim says a segment list containing a segment with
`end_time <= start_time`, confidence outside [0,1] or empty text makes
`analyze_transcript` fail with an `InvalidInput` error. The code performs
no validation: on a segment violating all three conditions at once it
still returns success. -/
theorem analyze_transcript_accepts_invalid_segment :
    invalidSegment.end_time ≤ invalidSegment.start_time ∧
    invalidSegment.text = "" ∧
    1 < invalidSegment.confidence ∧
    analyze_transcript "s1" [invalidSegment] =
      Except.ok "Analysis started successfully" :=
  ⟨le_refl _, rfl, by norm_num [invalidSegment], rfl⟩

/-- C2: the claim says the first indicator of every non-empty series
produced by `calculate_rapport` has trend `"stable"`. The code returns a
fixed series whose first indicator has trend `"increasing"`. -/
theorem calculate_rapport_first_trend_increasing :
    ∃ ind rest, calculate_rapport "s1" [] = Except.ok (ind :: rest) ∧
      ind.trend = "increasing" ∧ ind.trend ≠ "stable" :=
  ⟨_, _, rfl, rfl, by decide⟩

/-- C3: the claim says each indicator's `contributing_markers` are exactly
the ids of input markers whose interval intersects the window. On the
empty input marker list the code still returns an indicator with the
non-empty fixed list `["ATO_001", "SEM_003"]`, whose members are not ids
of any input marker. -/
theorem calculate_rapport_contributing_markers_not_from_input :
    ∃ ind rest,
      calculate_rapport "s1" ([] : List MarkerEvent) = Except.ok (ind :: rest) ∧
      "ATO_001" ∈ ind.contributing_markers ∧
      "ATO_001" ∉ ([] : List MarkerEvent).map MarkerEvent.id :=
  ⟨_, _, rfl, by decide, by decide⟩

/-- C4: the claim says `get_analysis_progress` fails with `NotFound` for a
session id for which no job was ever started. The code keeps no registry
and unconditionally returns a snapshot, so even `"unknown-session"`
succeeds. -/
theorem get_analysis_progress_unknown_session_succeeds :
    get_analysis_progress "unknown-session" =
      Except.ok
        { session_id := "unknown-session"
          progress := 0.60
          current_stage := "CLU"
          markers_detected := 15 } := rfl

/-- C5: the claim says a second `startJob` for the same session before the
first run terminates fails with `JobAlreadyRunning`. The code keeps no job
state: a repeated call to `analyze_transcript` for the same session id
returns the same success value, and in particular never an error. -/
theorem analyze_transcript_repeated_start_succeeds :
    analyze_transcript "s1" [] = Except.ok "Analysis started successfully" ∧
    analyze_transcript "s1" [] ≠ Except.error "JobAlreadyRunning" ∧
    ∀ e : String, analyze_transcript "s1" [] ≠ Except.error e :=
  ⟨rfl, by simp [analyze_transcript], fun e => by simp [analyze_transcript]⟩

/-- C6: every series returned by `calculate_rapport` has all values in
[-1,1] and strictly increasing timestamps (hence no duplicate
timestamps). -/
theorem calculate_rapport_series_invariants (s : String)
    (markers : List MarkerEvent) (l : List RapportIndicator)
    (h : calculate_rapport s markers = Except.ok l) :
    (∀ ind ∈ l, -1 ≤ ind.value ∧ ind.value ≤ 1) ∧
    l.Pairwise (fun a b => a.timestamp < b.timestamp) := by
  rw [calculate_rapport_eq] at h
  injection h with h
  subst h
  refine ⟨?_, ?_⟩
  · intro ind hind
    simp only [List.mem_cons, List.not_mem_nil, or_false] at hind
    rcases hind with h1 | h2
    · subst h1; constructor <;> norm_num
    · subst h2; constructor <;> norm_num
  · refine List.Pairwise.cons ?_ (List.Pairwise.cons ?_ List.Pairwise.nil)
    · intro b hb
      simp only [List.mem_cons, List.not_mem_nil, or_false] at hb
      subst hb; norm_num
    · intro b hb
      simp at hb

/-- Witness for C6 at the concrete input `("s1", [])`. -/
theorem calculate_rapport_series_invariants_witness :
    (∀ ind ∈
        [ ({ timestamp := 60.0, value := 0.7, trend := "increasing",
             contributing_markers := ["ATO_001", "SEM_003"] } :
            RapportIndicator),
          { timestamp := 120.0, value := 0.8, trend := "stable",
            contributing_markers := ["CLU_002"] } ],
        -1 ≤ ind.value ∧ ind.value ≤ 1) ∧
    List.Pairwise (fun a b : RapportIndicator => a.timestamp < b.timestamp)
      [ { timestamp := 60.0, value := 0.7, trend := "increasing",
          contributing_markers := ["ATO_001", "SEM_003"] },
        { timestamp := 120.0, value := 0.8, trend := "stable",
          contributing_markers := ["CLU_002"] } ] :=
  calculate_rapport_series_invariants "s1" [] _ rfl

/-- C7: determinism — on equal session ids, equal segment lists and equal
marker lists, both pipeline operations produce equal results. -/
theorem pipeline_deterministic (s t : String)
    (segs1 segs2 : List SpeakerSegment) (m1 m2 : List MarkerEvent)
    (hs : s = t) (hsegs : segs1 = segs2) (hm : m1 = m2) :
    analyze_transcript s segs1 = analyze_transcript t segs2 ∧
    calculate_rapport s m1 = calculate_rapport t m2 := by
  subst hs; subst hsegs; subst hm; exact ⟨rfl, rfl⟩

/-- Witness for C7 at the concrete input `("s1", [], [])`. -/
theorem pipeline_deterministic_witness :
    analyze_transcript "s1" [] = analyze_transcript "s1" [] ∧
    calculate_rapport "s1" [] = calculate_rapport "s1" [] :=
  pipeline_deterministic "s1" "s1" [] [] [] [] rfl rfl rfl

/-- C8: every successful `get_analysis_progress` snapshot has progress in
[0,1], a stage from the fixed enumeration, and a non-negative marker
count (the `u32` field is modelled as `ℕ`). -/
theorem get_analysis_progress_snapshot_invariants (s : String)
    (p : AnalysisProgress) (h : get_analysis_progress s = Except.ok p) :
    0 ≤ p.progress ∧ p.progress ≤ 1 ∧
    p.current_stage ∈ ["ATO", "SEM", "CLU", "MEMA", "Rapport", "Complete"] ∧
    0 ≤ p.markers_detected := by
  injection h with h
  subst h
  refine ⟨by norm_num, by norm_num, ?_, Nat.zero_le _⟩
  show "CLU" ∈ ["ATO", "SEM", "CLU", "MEMA", "Rapport", "Complete"]
  decide

/-- Witness for C8 at the concrete input `"s1"`. -/
theorem get_analysis_progress_snapshot_invariants_witness :
    0 ≤ (0.60 : ℚ) ∧ (0.60 : ℚ) ≤ 1 ∧
    "CLU" ∈ ["ATO", "SEM", "CLU", "MEMA", "Rapport", "Complete"] ∧
    0 ≤ 15 :=
  get_analysis_progress_snapshot_invariants "s1"
    { session_id := "s1", progress := 0.60, current_stage := "CLU",
      markers_detected := 15 } rfl

/-- C9: `calculate_rapport` ignores both of its arguments — any two calls
return the identical fixed series. -/
theorem calculate_rapport_output_independent_of_inputs
    (s t : String) (m1 m2 : List MarkerEvent) :
    calculate_rapport s m1 = calculate_rapport t m2 := rfl

/-- C10: a successful `get_analysis_progress` snapshot echoes the queried
session id unchanged. -/
theorem get_analysis_progress_echoes_session_id (s : String)
    (p : AnalysisProgress) (h : get_analysis_progress s = Except.ok p) :
    p.session_id = s := by
  injection h with h
  subst h
  rfl

/-- Witness for C10 at the concrete input `"abc"`. -/
theorem get_analysis_progress_echoes_session_id_witness :
    ("abc" : String) = "abc" :=
  get_analysis_progress_echoes_session_id "abc"
    { session_id := "abc", progress := 0.60, current_stage := "CLU",
      markers_detected := 15 } rfl

end TransRapport
